import Mathlib

/-!
Shallow embedding of the meeting-minutes generator (`minNode.py`) and its
Markdown formatter (`minApp.py`).

Python values produced by `json.loads` (strings, integers, booleans, `None`,
lists and objects) are modelled by the inductive `PyVal`; a Python dict is an
association list `PyDict`.  Python's `str()` coercion is `pyStr` (with `pyRepr`
for nested containers; Python's `repr` additionally escapes special characters
inside string literals and may switch quote style, which no claim depends on),
`str.strip()` is `pyStrip` over the Unicode whitespace set Python strips,
truthiness is `pyTruthy`, iteration is `pyIter` (raising `TypeError`, i.e.
returning `.error`, on non-iterable values, exactly as Python does),
`dict.get(k, d)` is `pyGet`, and `x or y` on an optional string is `pyOr`.

External effects (the OpenAI constructor, the `models.list` probe, the chat
completion plus `json.loads` of its body, and `python-docx` parsing) are
modelled by passing their outcome as an explicit `Except` argument: `.error e`
is the text of an exception raised at that call site.
-/

/-- A Python value as produced by `json.loads`. -/
inductive PyVal where
  | vStr (s : String)
  | vInt (n : Int)
  | vBool (b : Bool)
  | vNull
  | vList (xs : List PyVal)
  | vDict (kvs : List (String × PyVal))
deriving Repr

/-- A Python dict, modelled as an association list.  A real dict has at most
one binding per key; when a list carries duplicates we let the last binding
win, as `json.loads` does for duplicate object keys. -/
abbrev PyDict := List (String × PyVal)

mutual

/-- Python `repr`, restricted to JSON-shaped values (quote escaping inside
string literals is not modelled; no claim depends on it). -/
def pyRepr : PyVal → String
  | .vStr s => "'" ++ s ++ "'"
  | .vInt n => toString n
  | .vBool b => if b then "True" else "False"
  | .vNull => "None"
  | .vList xs => "[" ++ ", ".intercalate (pyReprList xs) ++ "]"
  | .vDict kvs => "\x7b" ++ ", ".intercalate (pyReprKVs kvs) ++ "\x7d"

/-- `repr` of the elements of a list. -/
def pyReprList : List PyVal → List String
  | [] => []
  | x :: xs => pyRepr x :: pyReprList xs

/-- `repr` of the entries of a dict. -/
def pyReprKVs : List (String × PyVal) → List String
  | [] => []
  | (k, v) :: kvs => ("'" ++ k ++ "': " ++ pyRepr v) :: pyReprKVs kvs

end

/-- Python `str()`: the identity on strings, `repr` otherwise. -/
def pyStr : PyVal → String
  | .vStr s => s
  | v => pyRepr v

/-- Python truthiness (`if content:`). -/
def pyTruthy : PyVal → Bool
  | .vStr s => s != ""
  | .vInt n => n != 0
  | .vBool b => b
  | .vNull => false
  | .vList xs => !xs.isEmpty
  | .vDict kvs => !kvs.isEmpty

/-- Python iteration (`for p in v`): lists yield their elements, strings their
characters, dicts their keys; numbers, booleans and `None` raise `TypeError`. -/
def pyIter : PyVal → Except String (List PyVal)
  | .vList xs => .ok xs
  | .vStr s => .ok (s.data.map (fun c => .vStr (String.mk [c])))
  | .vDict kvs => .ok (kvs.map (fun kv => .vStr kv.1))
  | .vInt _ => .error "TypeError: 'int' object is not iterable"
  | .vBool _ => .error "TypeError: 'bool' object is not iterable"
  | .vNull => .error "TypeError: 'NoneType' object is not iterable"

/-- The whitespace set stripped by Python's `str.strip()`. -/
def isPySpace (c : Char) : Bool :=
  let n := c.toNat
  decide (0x09 ≤ n ∧ n ≤ 0x0d) || decide (n = 0x20) ||
  decide (0x1c ≤ n ∧ n ≤ 0x1f) || decide (n = 0x85) || decide (n = 0xa0) ||
  decide (n = 0x1680) || decide (0x2000 ≤ n ∧ n ≤ 0x200a) ||
  decide (n = 0x2028) || decide (n = 0x2029) || decide (n = 0x202f) ||
  decide (n = 0x205f) || decide (n = 0x3000)

/-- `str.strip()` on the character list: drop whitespace from both ends. -/
def pyStripList (l : List Char) : List Char :=
  (l.dropWhile isPySpace).rdropWhile isPySpace

/-- Python `str.strip()`. -/
def pyStrip (s : String) : String :=
  String.mk (pyStripList s.data)

/-- Python `dict.get(k, dflt)` (last binding wins, see `PyDict`). -/
def pyGet (d : PyDict) (k : String) (dflt : PyVal) : PyVal :=
  (d.reverse.lookup k).getD dflt

/-- Python `a or b` for an optional string `a`: `None` and `""` are falsy. -/
def pyOr (a : Option String) (b : String) : String :=
  match a with
  | none => b
  | some s => if s = "" then b else s

/-- The Python type name of a value, as it appears in exception messages. -/
def pyTypeName : PyVal → String
  | .vStr _ => "str"
  | .vInt _ => "int"
  | .vBool _ => "bool"
  | .vNull => "NoneType"
  | .vList _ => "list"
  | .vDict _ => "dict"

/-!
`minNode.py` — `OpenAIClient`.  `client` is whether `self.client` is set,
`model` the selected model identifier, `last_error` the `self.last_error`
field (`none` is Python `None`).
-/

/-- The mutable state of `OpenAIClient`. -/
structure ClientState where
  client : Bool
  model : String
  last_error : Option String
deriving Repr, DecidableEq

/-- `OpenAIClient._init_client`.  `ctorResult` is the outcome of the
`OpenAI(...)` constructor call (only consulted when a key is present). -/
def init_client (st : ClientState) (api_key : Option String)
    (ctorResult : Except String Unit) : ClientState :=
  match api_key with
  | none =>
    { st with client := false, last_error := some "OPENAI_API_KEY is missing" }
  | some k =>
    if k = "" then
      { st with client := false, last_error := some "OPENAI_API_KEY is missing" }
    else
      match ctorResult with
      | .ok _ => { st with client := true, last_error := none }
      | .error e =>
        { st with client := false,
                  last_error := some ("Failed to initialize OpenAI client: " ++ e) }

/-- `OpenAIClient.set_api_key`. -/
def set_api_key (st : ClientState) (api_key : String)
    (ctorResult : Except String Unit) : ClientState × Bool :=
  let st' := init_client st (some api_key) ctorResult
  (st', st'.client)

/-- `OpenAIClient.test_connection`.  `probe` is the outcome of the
`self.client.models.list()` call (only consulted when the client is set). -/
def test_connection (st : ClientState) (probe : Except String Unit) :
    ClientState × Bool × String :=
  if st.client = false then
    (st, false, pyOr st.last_error "OpenAI client is not initialized")
  else
    match probe with
    | .ok _ => (st, true, "Connection successful")
    | .error e => ({ st with last_error := some e }, false, e)

/-- One pass of the list comprehension
`[str(p).strip() for p in xs if str(p).strip()]` in `_clean_minutes`. -/
def cleanStrs : List PyVal → List PyVal
  | [] => []
  | p :: ps =>
    let t := pyStrip (pyStr p)
    if t = "" then cleanStrs ps else .vStr t :: cleanStrs ps

/-- Evaluate one list field of `_clean_minutes`: iterate the value (raising
`TypeError` on non-iterables) and run the comprehension. -/
def cleanListField (v : PyVal) : Except String (List PyVal) :=
  match pyIter v with
  | .error e => .error e
  | .ok xs => .ok (cleanStrs xs)

/-- The summary field of `_clean_minutes`:
`str(minutes.get("summary", "")).strip() or "No summary available."`. -/
def cleanSummary (v : PyVal) : String :=
  let t := pyStrip (pyStr v)
  if t = "" then "No summary available." else t

/-- `OpenAIClient._clean_minutes` applied to a parsed dict. -/
def clean_minutes_dict (minutes : PyDict) : Except String PyDict :=
  match cleanListField (pyGet minutes "participants" (.vList [])) with
  | .error e => .error e
  | .ok ps =>
    match cleanListField (pyGet minutes "discussion_points" (.vList [])) with
    | .error e => .error e
    | .ok ts =>
      match cleanListField (pyGet minutes "outcomes_or_decisions" (.vList [])) with
      | .error e => .error e
      | .ok ds =>
        match cleanListField (pyGet minutes "next_steps" (.vList [])) with
        | .error e => .error e
        | .ok ns =>
          .ok [("summary", .vStr (cleanSummary (pyGet minutes "summary" (.vStr "")))),
               ("participants", .vList ps),
               ("discussion_points", .vList ts),
               ("outcomes_or_decisions", .vList ds),
               ("next_steps", .vList ns)]

/-- `OpenAIClient._clean_minutes`.  Returns `.error e` when the Python code
raises — an `AttributeError` if `json.loads` yielded a non-dict (its first
`.get` fails), or a `TypeError` from iterating a non-iterable field — which
the caller `generate_meeting_minutes` catches. -/
def clean_minutes : PyVal → Except String PyDict
  | .vDict kvs => clean_minutes_dict kvs
  | v => .error ("AttributeError: '" ++ pyTypeName v ++ "' object has no attribute 'get'")

/-- `OpenAIClient._create_fallback_minutes`. -/
def create_fallback_minutes : PyDict :=
  [("summary", .vStr "Could not automatically generate minutes. Manual review required."),
   ("participants", .vList []),
   ("key_topics", .vList [.vStr "Manual review required"]),
   ("decisions", .vList []),
   ("action_items", .vList []),
   ("next_steps", .vList [.vStr "Review transcript manually"])]

/-- `OpenAIClient.generate_meeting_minutes`.  `transcript` only feeds the user
message of the external completion call; `attempt` is the outcome of that call
followed by `json.loads` of its body: `.error e` is the text of any exception
raised inside the `try` block (transport failure or JSON parse failure), and
`.ok minutes` the parsed response.  A `TypeError` raised inside
`_clean_minutes` is caught by the same handler. -/
def generate_meeting_minutes (st : ClientState) (transcript : String)
    (attempt : Except String PyVal) : ClientState × PyDict :=
  if st.client = false then (st, create_fallback_minutes)
  else
    match attempt with
    | .error e => ({ st with last_error := some e }, create_fallback_minutes)
    | .ok minutes =>
      match clean_minutes minutes with
      | .ok record => (st, record)
      | .error e => ({ st with last_error := some e }, create_fallback_minutes)

/-!
`minApp.py` — `format_minutes_as_markdown`.
-/

/-- The `sections` list of `format_minutes_as_markdown` and its final join:
each list section joins `f"- {p}"` lines; the summary section holds the raw
value of `minutes.get("summary", "")`.  The comprehension keeps the truthy
contents and renders `f"{header}\n{content}"`, joined by blank lines. -/
def format_sections (summary : PyVal) (ps ts ds ns : List PyVal) : String :=
  "\n\n".intercalate
    (([("## 📝 Summary", summary),
       ("## 👥 Participants",
        .vStr ("\n".intercalate (ps.map (fun p => "- " ++ pyStr p)))),
       ("## 🗣️ Discussion Points",
        .vStr ("\n".intercalate (ts.map (fun t => "- " ++ pyStr t)))),
       ("## ✅ Outcomes or Decisions",
        .vStr ("\n".intercalate (ds.map (fun d => "- " ++ pyStr d)))),
       ("## 🚀 Next Steps",
        .vStr ("\n".intercalate (ns.map (fun s => "- " ++ pyStr s))))]
      : List (String × PyVal)).filterMap (fun hc =>
        if pyTruthy hc.2 then some (hc.1 ++ "\n" ++ pyStr hc.2) else none))

/-- `format_minutes_as_markdown` from `minApp.py`.  Iterating a non-iterable
list field raises, hence the `Except`; the list sections are evaluated in
source order before the join (`format_sections`). -/
def format_minutes_as_markdown (minutes : PyDict) : Except String String :=
  match pyIter (pyGet minutes "participants" (.vList [])) with
  | .error e => .error e
  | .ok ps =>
    match pyIter (pyGet minutes "discussion_points" (.vList [])) with
    | .error e => .error e
    | .ok ts =>
      match pyIter (pyGet minutes "outcomes_or_decisions" (.vList [])) with
      | .error e => .error e
      | .ok ds =>
        match pyIter (pyGet minutes "next_steps" (.vList [])) with
        | .error e => .error e
        | .ok ns =>
          .ok (format_sections (pyGet minutes "summary" (.vStr "")) ps ts ds ns)

/-!
`minNode.py` — `extract_text_from_docx`.  A parsed Word document exposes its
paragraph texts in document order and its tables as rows of cell texts.
-/

/-- The parts of a `python-docx` document the extractor reads:
`doc.paragraphs` (each `paragraph.text`) and `doc.tables` (each table a list
of rows, each row a list of `cell.text`). -/
structure DocxDocument where
  paragraphs : List String
  tables : List (List (List String))
deriving Repr, DecidableEq

/-- `extract_text_from_docx`.  `file` is the outcome of `docx.Document(file)`:
`.error` when parsing raises (caught, yielding `""`). -/
def extract_text_from_docx (file : Except String DocxDocument) : String :=
  match file with
  | .error _ => ""
  | .ok doc =>
    let paraParts := doc.paragraphs.filterMap (fun para =>
      if pyStrip para = "" then none else some (pyStrip para))
    let tableParts := doc.tables.flatMap (fun table =>
      table.flatMap (fun row =>
        row.filterMap (fun cell =>
          if pyStrip cell = "" then none else some (pyStrip cell))))
    "\n".intercalate (paraParts ++ tableParts)

/-!
Helper lemmas: stripping is idempotent, the cleaning comprehension is
idempotent and equals its map/filter normal form, and `lookup` is invariant
under permutations of a dict with distinct keys.
-/

/-- The head of `dropWhile p l` does not satisfy `p`. -/
theorem head?_dropWhile_false {α : Type} {p : α → Bool} {l : List α} {a : α}
    (h : (l.dropWhile p).head? = some a) : p a = false := by
  have hm := List.head?_dropWhile_not p l
  rw [h] at hm
  exact hm

/-- `dropWhile` is the identity when the head fails `p`. -/
theorem dropWhile_eq_self_of_head? {α : Type} {p : α → Bool} {l : List α}
    (h : ∀ a, l.head? = some a → p a = false) : l.dropWhile p = l := by
  cases l with
  | nil => rfl
  | cons a l => simp [List.dropWhile_cons, h a rfl]

/-- Left-dropping again after a right-then-left strip changes nothing. -/
theorem dropWhile_rdropWhile_self {α : Type} {p : α → Bool} (l : List α) :
    ((l.dropWhile p).rdropWhile p).dropWhile p = (l.dropWhile p).rdropWhile p := by
  apply dropWhile_eq_self_of_head?
  intro a ha
  obtain ⟨t, ht⟩ := List.rdropWhile_prefix p (l.dropWhile p)
  have hne : (l.dropWhile p).rdropWhile p ≠ [] := by
    intro hnil
    rw [hnil] at ha
    simp at ha
  have hh : (l.dropWhile p).head? = some a := by
    rw [← ht, List.head?_append_of_ne_nil _ hne, ha]
  exact head?_dropWhile_false hh

/-- Stripping a character list twice equals stripping it once. -/
theorem pyStripList_idem (l : List Char) :
    pyStripList (pyStripList l) = pyStripList l := by
  unfold pyStripList
  rw [dropWhile_rdropWhile_self, List.rdropWhile_idempotent]

/-- Python `strip` is idempotent. -/
theorem pyStrip_idem (s : String) : pyStrip (pyStrip s) = pyStrip s :=
  congrArg String.mk (pyStripList_idem s.data)

/-- `pyStr` is the identity on strings. -/
theorem pyStr_vStr (s : String) : pyStr (.vStr s) = s := rfl

/-- A string is truthy exactly when it is non-empty. -/
theorem pyTruthy_vStr (s : String) : pyTruthy (.vStr s) = (s != "") := rfl

/-- Unfolding equation of `cleanStrs` on a cons cell. -/
theorem cleanStrs_cons (p : PyVal) (ps : List PyVal) :
    cleanStrs (p :: ps)
      = if pyStrip (pyStr p) = "" then cleanStrs ps
        else .vStr (pyStrip (pyStr p)) :: cleanStrs ps := rfl

/-- The comprehension of `_clean_minutes` in map/filter normal form. -/
theorem cleanStrs_eq (xs : List PyVal) :
    cleanStrs xs
      = ((xs.map (fun p => pyStrip (pyStr p))).filter (fun t => t != "")).map .vStr := by
  induction xs with
  | nil => rfl
  | cons p ps ih =>
    simp only [cleanStrs, List.map_cons, List.filter_cons]
    by_cases h : pyStrip (pyStr p) = "" <;> simp [h, ih]

/-- The comprehension of `_clean_minutes` is idempotent. -/
theorem cleanStrs_idem (xs : List PyVal) : cleanStrs (cleanStrs xs) = cleanStrs xs := by
  induction xs with
  | nil => rfl
  | cons p ps ih =>
    rw [cleanStrs_cons]
    by_cases h : pyStrip (pyStr p) = ""
    · rw [if_pos h]
      exact ih
    · rw [if_neg h, cleanStrs_cons, pyStr_vStr, pyStrip_idem, if_neg h, ih]

/-- The cleaned summary is never the empty string. -/
theorem cleanSummary_ne_empty (v : PyVal) : cleanSummary v ≠ "" := by
  unfold cleanSummary
  by_cases h : pyStrip (pyStr v) = ""
  · rw [if_pos h]
    decide
  · rw [if_neg h]
    exact h

/-- The cleaned summary is already stripped. -/
theorem pyStrip_cleanSummary (v : PyVal) : pyStrip (cleanSummary v) = cleanSummary v := by
  unfold cleanSummary
  by_cases h : pyStrip (pyStr v) = ""
  · rw [if_pos h]
    decide
  · rw [if_neg h]
    exact pyStrip_idem (pyStr v)

/-- Cleaning the summary field is idempotent. -/
theorem cleanSummary_idem (v : PyVal) :
    cleanSummary (.vStr (cleanSummary v)) = cleanSummary v := by
  show (if pyStrip (pyStr (PyVal.vStr (cleanSummary v))) = ""
        then "No summary available." else pyStrip (pyStr (PyVal.vStr (cleanSummary v))))
      = cleanSummary v
  rw [show pyStr (PyVal.vStr (cleanSummary v)) = cleanSummary v from rfl,
      pyStrip_cleanSummary, if_neg (cleanSummary_ne_empty v)]

/-- A strip-and-keep-nonempty `filterMap` in map/filter normal form. -/
theorem filterMap_strip_eq {α : Type} (g : α → String) (l : List α) :
    l.filterMap (fun x => if g x = "" then none else some (g x))
      = (l.map g).filter (fun t => t != "") := by
  induction l with
  | nil => rfl
  | cons a l ih =>
    simp only [List.filterMap_cons, List.map_cons, List.filter_cons]
    by_cases h : g a = "" <;> simp [h, ih]

/-- `lookup` is unchanged by permuting an association list with distinct keys. -/
theorem lookup_perm {β : Type} (k : String) {l₁ l₂ : List (String × β)}
    (hp : l₁.Perm l₂) :
    (l₁.map Prod.fst).Nodup → l₁.lookup k = l₂.lookup k := by
  induction hp with
  | nil => exact fun _ => rfl
  | cons x h ih =>
    intro hn
    obtain ⟨xk, xv⟩ := x
    simp only [List.map_cons, List.nodup_cons] at hn
    cases hx : k == xk <;> simp [List.lookup_cons, hx, ih hn.2]
  | swap x y l =>
    intro hn
    obtain ⟨xk, xv⟩ := x
    obtain ⟨yk, yv⟩ := y
    simp only [List.map_cons, List.nodup_cons, List.mem_cons] at hn
    have hxy : yk ≠ xk := fun he => hn.1 (Or.inl he)
    cases hky : k == yk <;> cases hkx : k == xk
    · simp [List.lookup_cons, hky, hkx]
    · simp [List.lookup_cons, hky, hkx]
    · simp [List.lookup_cons, hky, hkx]
    · exact absurd ((eq_of_beq hky).symm.trans (eq_of_beq hkx)) hxy
  | trans h₁ h₂ ih₁ ih₂ =>
    intro hn
    rw [ih₁ hn, ih₂ (((h₁.map Prod.fst).nodup_iff).mp hn)]

/-- `dict.get` is unchanged by permuting a dict with distinct keys. -/
theorem pyGet_perm {d₁ d₂ : PyDict} (hp : d₁.Perm d₂)
    (hn : (d₁.map Prod.fst).Nodup) (k : String) (dflt : PyVal) :
    pyGet d₁ k dflt = pyGet d₂ k dflt := by
  unfold pyGet
  have hrev : d₁.reverse.Perm d₂.reverse :=
    (d₁.reverse_perm).trans (hp.trans d₂.reverse_perm.symm)
  have hnrev : (d₁.reverse.map Prod.fst).Nodup := by
    rw [List.map_reverse]
    exact List.nodup_reverse.mpr hn
  rw [lookup_perm k hrev hnrev]

/-- `format_sections` on a string summary, in filter/map normal form. -/
theorem format_sections_eq (s : String) (ps ts ds ns : List PyVal) :
    format_sections (.vStr s) ps ts ds ns
      = "\n\n".intercalate
          ((([("## 📝 Summary", s),
              ("## 👥 Participants",
               "\n".intercalate (ps.map (fun p => "- " ++ pyStr p))),
              ("## 🗣️ Discussion Points",
               "\n".intercalate (ts.map (fun t => "- " ++ pyStr t))),
              ("## ✅ Outcomes or Decisions",
               "\n".intercalate (ds.map (fun d => "- " ++ pyStr d))),
              ("## 🚀 Next Steps",
               "\n".intercalate (ns.map (fun x => "- " ++ pyStr x)))]
             : List (String × String)).filter (fun hc => hc.2 != "")).map
            (fun hc => hc.1 ++ "\n" ++ hc.2)) := by
  unfold format_sections
  by_cases h1 : s = "" <;>
    by_cases h2 : "\n".intercalate (ps.map (fun p => "- " ++ pyStr p)) = "" <;>
      by_cases h3 : "\n".intercalate (ts.map (fun t => "- " ++ pyStr t)) = "" <;>
        by_cases h4 : "\n".intercalate (ds.map (fun d => "- " ++ pyStr d)) = "" <;>
          by_cases h5 : "\n".intercalate (ns.map (fun x => "- " ++ pyStr x)) = "" <;>
            simp [pyTruthy_vStr, pyStr_vStr, h1, h2, h3, h4, h5]

/-- A list field that cleans successfully is a fixpoint of the comprehension. -/
theorem cleanListField_ok {v : PyVal} {l : List PyVal}
    (h : cleanListField v = .ok l) : cleanStrs l = l := by
  unfold cleanListField at h
  cases hv : pyIter v with
  | error e =>
    rw [hv] at h
    simp at h
  | ok xs =>
    rw [hv] at h
    simp only [Except.ok.injEq] at h
    rw [← h]
    exact cleanStrs_idem xs

/-- Inversion of a successful `_clean_minutes` run: each list field cleaned
successfully and the result is the canonical five-entry record. -/
theorem clean_minutes_dict_ok {d r : PyDict} (h : clean_minutes_dict d = .ok r) :
    ∃ ps ts ds ns,
      cleanListField (pyGet d "participants" (.vList [])) = .ok ps ∧
      cleanListField (pyGet d "discussion_points" (.vList [])) = .ok ts ∧
      cleanListField (pyGet d "outcomes_or_decisions" (.vList [])) = .ok ds ∧
      cleanListField (pyGet d "next_steps" (.vList [])) = .ok ns ∧
      r = [("summary", .vStr (cleanSummary (pyGet d "summary" (.vStr "")))),
           ("participants", .vList ps),
           ("discussion_points", .vList ts),
           ("outcomes_or_decisions", .vList ds),
           ("next_steps", .vList ns)] := by
  unfold clean_minutes_dict at h
  repeat' split at h
  any_goals exact Except.noConfusion h
  rename_i u1 ps hp u2 ts ht u3 ds hd u4 ns hn
  injection h with h2
  exact ⟨ps, ts, ds, ns, hp, ht, hd, hn, h2.symm⟩

/-!
Claim theorems.
-/

/-- C1: `generate_meeting_minutes` never raises to its caller: for every
transcript and every exception `e` raised at the completion call (transport
failure or JSON parse failure of the response body), the exception is caught,
its text is recorded in `last_error`, and the fallback record is returned,
whose `summary` equals the fixed fallback sentinel string. -/
theorem generateMinutes_catches_and_falls_back
    (st : ClientState) (transcript : String) (e : String)
    (hclient : st.client = true) :
    generate_meeting_minutes st transcript (.error e)
        = ({ st with last_error := some e }, create_fallback_minutes)
      ∧ pyGet create_fallback_minutes "summary" (.vStr "")
        = .vStr "Could not automatically generate minutes. Manual review required." := by
  constructor
  · simp [generate_meeting_minutes, hclient]
  · rfl

/-- Witness for C1 at a concrete state, transcript and injected exception. -/
theorem generateMinutes_catches_and_falls_back_witness :
    generate_meeting_minutes ⟨true, "gpt-4o-mini", none⟩ "hello" (.error "boom")
        = (⟨true, "gpt-4o-mini", some "boom"⟩, create_fallback_minutes)
      ∧ pyGet create_fallback_minutes "summary" (.vStr "")
        = .vStr "Could not automatically generate minutes. Manual review required." :=
  generateMinutes_catches_and_falls_back ⟨true, "gpt-4o-mini", none⟩ "hello" "boom" rfl

/-- C2: sanitization maps each of the four list fields to exactly its input
elements coerced to strings and trimmed, dropping elements that are empty
after trimming and preserving order; the summary is coerced to a trimmed
string and replaced by the placeholder "No summary available." when empty
after trimming; a missing field defaults to the empty list (empty string for
the summary) through the `dict.get` defaults before coercion. -/
theorem clean_minutes_sanitizes (d : PyDict) (ps ts ds ns : List PyVal)
    (hp : pyGet d "participants" (.vList []) = .vList ps)
    (ht : pyGet d "discussion_points" (.vList []) = .vList ts)
    (hd : pyGet d "outcomes_or_decisions" (.vList []) = .vList ds)
    (hn : pyGet d "next_steps" (.vList []) = .vList ns) :
    clean_minutes (.vDict d) = .ok
      [("summary", .vStr
         (if pyStrip (pyStr (pyGet d "summary" (.vStr ""))) = ""
          then "No summary available."
          else pyStrip (pyStr (pyGet d "summary" (.vStr ""))))),
       ("participants", .vList
         (((ps.map (fun p => pyStrip (pyStr p))).filter (fun t => t != "")).map .vStr)),
       ("discussion_points", .vList
         (((ts.map (fun p => pyStrip (pyStr p))).filter (fun t => t != "")).map .vStr)),
       ("outcomes_or_decisions", .vList
         (((ds.map (fun p => pyStrip (pyStr p))).filter (fun t => t != "")).map .vStr)),
       ("next_steps", .vList
         (((ns.map (fun p => pyStrip (pyStr p))).filter (fun t => t != "")).map .vStr))] := by
  show clean_minutes_dict d = _
  unfold clean_minutes_dict
  rw [hp, ht, hd, hn]
  simp only [cleanListField, pyIter]
  rw [cleanStrs_eq ps, cleanStrs_eq ts, cleanStrs_eq ds, cleanStrs_eq ns]
  rfl

/-- Witness for C2 on a concrete response dict with whitespace entries and two
missing fields. -/
theorem clean_minutes_sanitizes_witness :
    clean_minutes (.vDict
      [("summary", .vStr "  ok  "),
       ("participants", .vList [.vStr " a ", .vStr "  "]),
       ("next_steps", .vList [.vStr "b"])]) = .ok
      [("summary", .vStr "ok"),
       ("participants", .vList [.vStr "a"]),
       ("discussion_points", .vList []),
       ("outcomes_or_decisions", .vList []),
       ("next_steps", .vList [.vStr "b"])] := by
  have h := clean_minutes_sanitizes
    [("summary", .vStr "  ok  "),
     ("participants", .vList [.vStr " a ", .vStr "  "]),
     ("next_steps", .vList [.vStr "b"])]
    [.vStr " a ", .vStr "  "] [] [] [.vStr "b"] rfl rfl rfl rfl
  exact h.trans rfl

/-- C3 counterexample: the canonical list field `next_steps` of the fallback
record is not empty — it holds the entry "Review transcript manually" — so
not every canonical list field of the fallback record is an empty list. -/
theorem fallback_next_steps_not_empty :
    pyGet create_fallback_minutes "next_steps" (.vList [])
        = .vList [.vStr "Review transcript manually"]
      ∧ pyGet create_fallback_minutes "next_steps" (.vList []) ≠ .vList [] := by
  refine ⟨rfl, fun h => ?_⟩
  rw [show pyGet create_fallback_minutes "next_steps" (.vList [])
        = .vList [.vStr "Review transcript manually"] from rfl] at h
  injection h with h'
  exact List.noConfusion h'

/-- C3 (amended): in the fallback record, `summary` is the sentinel;
`participants` is the only canonical list field stored empty;
`discussion_points` and `outcomes_or_decisions` are absent (reading them
yields only the empty-list default); the non-canonical fields `key_topics`
(holding the "Manual review required" marker), `decisions` and `action_items`
are present, the latter two empty; and the canonical `next_steps` field is
not empty — it holds the single entry "Review transcript manually". -/
theorem fallback_record_contents :
    pyGet create_fallback_minutes "summary" (.vStr "")
        = .vStr "Could not automatically generate minutes. Manual review required."
      ∧ pyGet create_fallback_minutes "participants" (.vList []) = .vList []
      ∧ create_fallback_minutes.lookup "discussion_points" = none
      ∧ create_fallback_minutes.lookup "outcomes_or_decisions" = none
      ∧ pyGet create_fallback_minutes "key_topics" (.vList [])
          = .vList [.vStr "Manual review required"]
      ∧ pyGet create_fallback_minutes "decisions" (.vList []) = .vList []
      ∧ pyGet create_fallback_minutes "action_items" (.vList []) = .vList []
      ∧ pyGet create_fallback_minutes "next_steps" (.vList [])
          = .vList [.vStr "Review transcript manually"]
      ∧ create_fallback_minutes.map Prod.fst
          = ["summary", "participants", "key_topics", "decisions",
             "action_items", "next_steps"] :=
  ⟨rfl, rfl, rfl, rfl, rfl, rfl, rfl, rfl, rfl⟩

/-- C4: for every canonical record read out of the input dict,
`format_minutes_as_markdown` emits the section blocks in the fixed order
Summary, Participants, Discussion Points, Outcomes/Decisions, Next Steps,
joins the emitted blocks with one blank line, and omits a section entirely
(header and body) whenever its formatted content is the empty string, so no
section appears with an empty body; and the output is unchanged under any
permutation of the input dict's entries (distinct keys), i.e. it does not
depend on the order of the fields. -/
theorem format_minutes_fixed_order (d : PyDict) (s : String)
    (ps ts ds ns : List PyVal)
    (hs : pyGet d "summary" (.vStr "") = .vStr s)
    (hp : pyGet d "participants" (.vList []) = .vList ps)
    (ht : pyGet d "discussion_points" (.vList []) = .vList ts)
    (hd : pyGet d "outcomes_or_decisions" (.vList []) = .vList ds)
    (hn : pyGet d "next_steps" (.vList []) = .vList ns) :
    format_minutes_as_markdown d = .ok
      ("\n\n".intercalate
        ((([("## 📝 Summary", s),
            ("## 👥 Participants",
             "\n".intercalate (ps.map (fun p => "- " ++ pyStr p))),
            ("## 🗣️ Discussion Points",
             "\n".intercalate (ts.map (fun t => "- " ++ pyStr t))),
            ("## ✅ Outcomes or Decisions",
             "\n".intercalate (ds.map (fun x => "- " ++ pyStr x))),
            ("## 🚀 Next Steps",
             "\n".intercalate (ns.map (fun x => "- " ++ pyStr x)))]
           : List (String × String)).filter (fun hc => hc.2 != "")).map
          (fun hc => hc.1 ++ "\n" ++ hc.2)))
    ∧ ∀ d' : PyDict, d.Perm d' → (d.map Prod.fst).Nodup →
        format_minutes_as_markdown d' = format_minutes_as_markdown d := by
  constructor
  · unfold format_minutes_as_markdown
    rw [hs, hp, ht, hd, hn]
    simp only [pyIter]
    rw [format_sections_eq]
  · intro d' hperm hnodup
    have hg : ∀ k dflt, pyGet d' k dflt = pyGet d k dflt :=
      fun k dflt => (pyGet_perm hperm hnodup k dflt).symm
    unfold format_minutes_as_markdown
    simp only [hg]

/-- Witness for C4 on a concrete record, including a permuted variant. -/
theorem format_minutes_fixed_order_witness :
    format_minutes_as_markdown
        [("summary", .vStr "S"), ("participants", .vList [.vStr "a"])]
      = .ok "## 📝 Summary\nS\n\n## 👥 Participants\n- a"
    ∧ format_minutes_as_markdown
        [("participants", .vList [.vStr "a"]), ("summary", .vStr "S")]
      = format_minutes_as_markdown
        [("summary", .vStr "S"), ("participants", .vList [.vStr "a"])] := by
  have h := format_minutes_fixed_order
    [("summary", .vStr "S"), ("participants", .vList [.vStr "a"])]
    "S" [.vStr "a"] [] [] [] rfl rfl rfl rfl rfl
  refine ⟨h.1.trans rfl, h.2 _ ?_ ?_⟩
  · exact List.Perm.swap _ _ _
  · decide

/-- C5: a record whose summary is the empty string and whose four list fields
are all empty formats to the empty string. -/
theorem format_minutes_all_empty (d : PyDict)
    (hs : pyGet d "summary" (.vStr "") = .vStr "")
    (hp : pyGet d "participants" (.vList []) = .vList [])
    (ht : pyGet d "discussion_points" (.vList []) = .vList [])
    (hd : pyGet d "outcomes_or_decisions" (.vList []) = .vList [])
    (hn : pyGet d "next_steps" (.vList []) = .vList []) :
    format_minutes_as_markdown d = .ok "" := by
  unfold format_minutes_as_markdown
  rw [hs, hp, ht, hd, hn]
  simp only [pyIter]
  rfl

/-- Witness for C5: the empty dict reads out as the all-empty record. -/
theorem format_minutes_all_empty_witness :
    format_minutes_as_markdown [] = .ok "" :=
  format_minutes_all_empty [] rfl rfl rfl rfl rfl

/-- C6: sanitization is idempotent — whenever `_clean_minutes` succeeds on an
input dict, running it again on its own output returns that output
unchanged. -/
theorem clean_minutes_idempotent (d r : PyDict)
    (h : clean_minutes (.vDict d) = .ok r) :
    clean_minutes (.vDict r) = .ok r := by
  obtain ⟨ps, ts, ds, ns, hp, ht, hd, hn, rfl⟩ := clean_minutes_dict_ok h
  show Except.ok
      [("summary", PyVal.vStr (cleanSummary (.vStr (cleanSummary (pyGet d "summary" (.vStr "")))))),
       ("participants", .vList (cleanStrs ps)),
       ("discussion_points", .vList (cleanStrs ts)),
       ("outcomes_or_decisions", .vList (cleanStrs ds)),
       ("next_steps", .vList (cleanStrs ns))] = _
  rw [cleanSummary_idem, cleanListField_ok hp, cleanListField_ok ht,
      cleanListField_ok hd, cleanListField_ok hn]

/-- Witness for C6: cleaning the empty dict and cleaning its output again. -/
theorem clean_minutes_idempotent_witness :
    clean_minutes (.vDict
      [("summary", .vStr "No summary available."),
       ("participants", .vList []),
       ("discussion_points", .vList []),
       ("outcomes_or_decisions", .vList []),
       ("next_steps", .vList [])]) = .ok
      [("summary", .vStr "No summary available."),
       ("participants", .vList []),
       ("discussion_points", .vList []),
       ("outcomes_or_decisions", .vList []),
       ("next_steps", .vList [])] :=
  clean_minutes_idempotent [] _ rfl

/-- C7: on an unconfigured Generator (no client), `test_connection` returns
`(false, m)` with a non-empty message and `generate_meeting_minutes` returns
the fallback record; both leave the state unchanged and their results do not
depend on the probe/completion outcome — no network call is consulted. -/
theorem unconfigured_operations (st : ClientState) (h : st.client = false) :
    (∀ probe : Except String Unit,
        test_connection st probe
            = (st, false, pyOr st.last_error "OpenAI client is not initialized")
          ∧ pyOr st.last_error "OpenAI client is not initialized" ≠ "")
    ∧ ∀ (transcript : String) (attempt : Except String PyVal),
        generate_meeting_minutes st transcript attempt
          = (st, create_fallback_minutes) := by
  constructor
  · intro probe
    refine ⟨by simp [test_connection, h], ?_⟩
    cases st.last_error with
    | none => decide
    | some s =>
      show (if s = "" then "OpenAI client is not initialized" else s) ≠ ""
      by_cases hs : s = ""
      · rw [if_pos hs]
        decide
      · rw [if_neg hs]
        exact hs
  · intro transcript attempt
    simp [generate_meeting_minutes, h]

/-- Witness for C7 at a concrete unconfigured state. -/
theorem unconfigured_operations_witness :
    test_connection ⟨false, "gpt-4o-mini", none⟩ (.ok ())
        = (⟨false, "gpt-4o-mini", none⟩, false, "OpenAI client is not initialized")
      ∧ generate_meeting_minutes ⟨false, "gpt-4o-mini", none⟩ "t" (.ok (.vDict []))
        = (⟨false, "gpt-4o-mini", none⟩, create_fallback_minutes) := by
  have h := unconfigured_operations ⟨false, "gpt-4o-mini", none⟩ rfl
  exact ⟨(h.1 (.ok ())).1.trans rfl, h.2 "t" (.ok (.vDict []))⟩

/-- C8 counterexample: `last_error` is not overwritten on every operation —
a successful `test_connection` and a successful `generate_meeting_minutes`
both leave the state, including the previously recorded `last_error`,
entirely unchanged. -/
theorem last_error_kept_on_success :
    (test_connection ⟨true, "gpt-4o-mini", some "previous failure"⟩ (.ok ())).1
        = ⟨true, "gpt-4o-mini", some "previous failure"⟩
      ∧ (test_connection ⟨true, "gpt-4o-mini", some "previous failure"⟩ (.ok ())).2.1
        = true
      ∧ (generate_meeting_minutes ⟨true, "gpt-4o-mini", some "previous failure"⟩ "t"
          (.ok (.vDict []))).1
        = ⟨true, "gpt-4o-mini", some "previous failure"⟩ :=
  ⟨rfl, rfl, rfl⟩

/-- C8 (amended): `_init_client` — hence `set_api_key` — overwrites
`last_error` on every path (missing key, constructor success, constructor
failure), while `test_connection` and `generate_meeting_minutes` write it only
on their exception paths, recording the error text there, and leave the state
unchanged on their success paths and on the unconfigured early return. -/
theorem last_error_update_paths :
    (∀ st ctor, init_client st none ctor
        = { st with client := false, last_error := some "OPENAI_API_KEY is missing" })
    ∧ (∀ st ctor, init_client st (some "") ctor
        = { st with client := false, last_error := some "OPENAI_API_KEY is missing" })
    ∧ (∀ st k, k ≠ "" → init_client st (some k) (.ok ())
        = { st with client := true, last_error := none })
    ∧ (∀ st k e, k ≠ "" → init_client st (some k) (.error e)
        = { st with client := false,
                    last_error := some ("Failed to initialize OpenAI client: " ++ e) })
    ∧ (∀ st e, st.client = true →
        test_connection st (.error e) = ({ st with last_error := some e }, false, e))
    ∧ (∀ st, st.client = true →
        test_connection st (.ok ()) = (st, true, "Connection successful"))
    ∧ (∀ st probe, st.client = false → (test_connection st probe).1 = st)
    ∧ (∀ st transcript e, st.client = true →
        (generate_meeting_minutes st transcript (.error e)).1
          = { st with last_error := some e })
    ∧ (∀ st transcript m r, st.client = true → clean_minutes m = .ok r →
        generate_meeting_minutes st transcript (.ok m) = (st, r))
    ∧ (∀ st transcript attempt, st.client = false →
        (generate_meeting_minutes st transcript attempt).1 = st) := by
  refine ⟨fun st ctor => rfl, fun st ctor => by simp [init_client],
          fun st k hk => by simp [init_client, hk],
          fun st k e hk => by simp [init_client, hk],
          fun st e h => by simp [test_connection, h],
          fun st h => by simp [test_connection, h],
          fun st probe h => by simp [test_connection, h],
          fun st tr e h => by simp [generate_meeting_minutes, h],
          fun st tr m r h hm => by simp [generate_meeting_minutes, h, hm],
          fun st tr a h => by simp [generate_meeting_minutes, h]⟩

/-- Witness for C8 (amended), instantiating every path at concrete inputs. -/
theorem last_error_update_paths_witness :
    init_client ⟨true, "m", none⟩ none (.ok ())
        = ⟨false, "m", some "OPENAI_API_KEY is missing"⟩
      ∧ init_client ⟨true, "m", none⟩ (some "") (.ok ())
        = ⟨false, "m", some "OPENAI_API_KEY is missing"⟩
      ∧ init_client ⟨false, "m", some "old"⟩ (some "sk") (.ok ()) = ⟨true, "m", none⟩
      ∧ init_client ⟨false, "m", none⟩ (some "sk") (.error "bad")
        = ⟨false, "m", some "Failed to initialize OpenAI client: bad"⟩
      ∧ test_connection ⟨true, "m", none⟩ (.error "down")
        = (⟨true, "m", some "down"⟩, false, "down")
      ∧ test_connection ⟨true, "m", some "old"⟩ (.ok ())
        = (⟨true, "m", some "old"⟩, true, "Connection successful")
      ∧ (test_connection ⟨false, "m", some "old"⟩ (.ok ())).1 = ⟨false, "m", some "old"⟩
      ∧ (generate_meeting_minutes ⟨true, "m", some "old"⟩ "t" (.error "boom")).1
        = ⟨true, "m", some "boom"⟩
      ∧ generate_meeting_minutes ⟨true, "m", some "old"⟩ "t" (.ok (.vDict []))
        = (⟨true, "m", some "old"⟩,
           [("summary", .vStr "No summary available."), ("participants", .vList []),
            ("discussion_points", .vList []), ("outcomes_or_decisions", .vList []),
            ("next_steps", .vList [])])
      ∧ (generate_meeting_minutes ⟨false, "m", none⟩ "t" (.error "x")).1
        = ⟨false, "m", none⟩ := by
  obtain ⟨h1, h2, h3, h4, h5, h6, h7, h8, h9, h10⟩ := last_error_update_paths
  exact ⟨h1 _ _, h2 _ _, h3 _ "sk" (by decide), h4 _ "sk" "bad" (by decide),
         h5 _ "down" rfl, h6 _ rfl, h7 _ _ rfl, h8 _ "t" "boom" rfl,
         h9 _ "t" _ _ rfl rfl, h10 _ "t" _ rfl⟩

/-- C9: Word-document extraction emits all stripped paragraph texts in
document order, followed by every table cell in row-major, table order
(never interleaved with paragraphs), keeps only fragments that are non-empty
after stripping, joins them with single newlines; any parsing failure yields
the empty string; and a document with one paragraph "A" and one table cell
"X" yields "A\nX". -/
theorem extract_docx_spec :
    (∀ doc : DocxDocument,
        extract_text_from_docx (.ok doc)
          = "\n".intercalate
              (((doc.paragraphs
                  ++ doc.tables.flatMap (fun table => table.flatMap (fun row => row))).map
                    pyStrip).filter (fun s => s != "")))
    ∧ (∀ e : String, extract_text_from_docx (.error e) = "")
    ∧ extract_text_from_docx (.ok ⟨["A"], [[["X"]]]⟩) = "A\nX" := by
  refine ⟨?_, fun e => rfl, rfl⟩
  intro doc
  show "\n".intercalate
      (doc.paragraphs.filterMap (fun para =>
          if pyStrip para = "" then none else some (pyStrip para))
        ++ doc.tables.flatMap (fun table =>
            table.flatMap (fun row =>
              row.filterMap (fun cell =>
                if pyStrip cell = "" then none else some (pyStrip cell))))) = _
  simp only [filterMap_strip_eq, List.map_append, List.filter_append,
    List.map_flatMap, List.filter_flatMap]

/-- C10: whenever sanitization succeeds, the returned record carries exactly
the five canonical keys, in canonical order — any extra keys of the parsed
response are dropped — while the fallback record does not have the canonical
key set. -/
theorem clean_minutes_canonical_keys :
    (∀ (m : PyVal) (r : PyDict), clean_minutes m = .ok r →
        r.map Prod.fst
          = ["summary", "participants", "discussion_points",
             "outcomes_or_decisions", "next_steps"])
    ∧ create_fallback_minutes.map Prod.fst
        ≠ ["summary", "participants", "discussion_points",
           "outcomes_or_decisions", "next_steps"] := by
  refine ⟨?_, by decide⟩
  intro m r h
  cases m with
  | vDict d =>
    obtain ⟨ps, ts, ds, ns, hp, ht, hd, hn, rfl⟩ := clean_minutes_dict_ok h
    rfl
  | vStr s => exact Except.noConfusion h
  | vInt n => exact Except.noConfusion h
  | vBool b => exact Except.noConfusion h
  | vNull => exact Except.noConfusion h
  | vList xs => exact Except.noConfusion h

/-- Witness for C10: a response dict with only an extra, non-canonical key
still cleans to a record with exactly the five canonical keys. -/
theorem clean_minutes_canonical_keys_witness :
    ([("summary", PyVal.vStr "No summary available."),
      ("participants", PyVal.vList []),
      ("discussion_points", PyVal.vList []),
      ("outcomes_or_decisions", PyVal.vList []),
      ("next_steps", PyVal.vList [])] : PyDict).map Prod.fst
      = ["summary", "participants", "discussion_points",
         "outcomes_or_decisions", "next_steps"] :=
  clean_minutes_canonical_keys.1 (.vDict [("extra", .vInt 7)]) _ rfl
